import Mathlib

/-!
Verification of the jsonrpcclient core (`src/jsonrpcclient/client.py`) by a
shallow embedding in Lean.

The repository's source contains only `client.py`; the companion modules it
imports (`parse.py`, `request.py`, `response.py`) are not present, so their
operations are modelled from the specification, each marked with a doc
comment starting `Modelled from the spec:`.  Everything in `client.py`
itself (the `Client` class: `send`, `notify`, `request`, `__getattr__`,
the `apply_self` default resolution) is translated directly from the code.

Python exceptions are modelled with `Except`, the abstract transport
(`send_message`), the overridable `validate_response`, the JSON decoder and
the external schema validator are explicit function parameters, and the
externally-visible steps of a call (logging hooks, transport invocation,
validation, parsing) are recorded as an event trace so that ordering and
pass-through claims can be stated.
-/

set_option autoImplicit false

namespace JsonRpc

/-- JSON values, as produced by Python's `json` module. -/
inductive Json where
  | null : Json
  | bool : Bool → Json
  | num : Int → Json
  | str : String → Json
  | arr : List Json → Json
  | obj : List (String × Json) → Json

mutual

def Json.decEq : (a b : Json) → Decidable (a = b)
  | .null, .null => .isTrue rfl
  | .bool a, .bool b =>
      if h : a = b then .isTrue (by rw [h]) else .isFalse (by simp [h])
  | .num a, .num b =>
      if h : a = b then .isTrue (by rw [h]) else .isFalse (by simp [h])
  | .str a, .str b =>
      if h : a = b then .isTrue (by rw [h]) else .isFalse (by simp [h])
  | .arr a, .arr b =>
      match Json.decEqList a b with
      | .isTrue h => .isTrue (by rw [h])
      | .isFalse h => .isFalse (by simp [h])
  | .obj a, .obj b =>
      match Json.decEqObj a b with
      | .isTrue h => .isTrue (by rw [h])
      | .isFalse h => .isFalse (by simp [h])
  | .null, .bool _ => .isFalse nofun
  | .null, .num _ => .isFalse nofun
  | .null, .str _ => .isFalse nofun
  | .null, .arr _ => .isFalse nofun
  | .null, .obj _ => .isFalse nofun
  | .bool _, .null => .isFalse nofun
  | .bool _, .num _ => .isFalse nofun
  | .bool _, .str _ => .isFalse nofun
  | .bool _, .arr _ => .isFalse nofun
  | .bool _, .obj _ => .isFalse nofun
  | .num _, .null => .isFalse nofun
  | .num _, .bool _ => .isFalse nofun
  | .num _, .str _ => .isFalse nofun
  | .num _, .arr _ => .isFalse nofun
  | .num _, .obj _ => .isFalse nofun
  | .str _, .null => .isFalse nofun
  | .str _, .bool _ => .isFalse nofun
  | .str _, .num _ => .isFalse nofun
  | .str _, .arr _ => .isFalse nofun
  | .str _, .obj _ => .isFalse nofun
  | .arr _, .null => .isFalse nofun
  | .arr _, .bool _ => .isFalse nofun
  | .arr _, .num _ => .isFalse nofun
  | .arr _, .str _ => .isFalse nofun
  | .arr _, .obj _ => .isFalse nofun
  | .obj _, .null => .isFalse nofun
  | .obj _, .bool _ => .isFalse nofun
  | .obj _, .num _ => .isFalse nofun
  | .obj _, .str _ => .isFalse nofun
  | .obj _, .arr _ => .isFalse nofun

def Json.decEqList : (a b : List Json) → Decidable (a = b)
  | [], [] => .isTrue rfl
  | [], _ :: _ => .isFalse nofun
  | _ :: _, [] => .isFalse nofun
  | x :: xs, y :: ys =>
      match Json.decEq x y with
      | .isFalse h => .isFalse (by simp [h])
      | .isTrue h =>
        match Json.decEqList xs ys with
        | .isTrue htl => .isTrue (by rw [h, htl])
        | .isFalse htl => .isFalse (by simp [htl])

def Json.decEqObj : (a b : List (String × Json)) → Decidable (a = b)
  | [], [] => .isTrue rfl
  | [], _ :: _ => .isFalse nofun
  | _ :: _, [] => .isFalse nofun
  | (k1, v1) :: xs, (k2, v2) :: ys =>
      if hk : k1 = k2 then
        match Json.decEq v1 v2 with
        | .isFalse h => .isFalse (by simp [h])
        | .isTrue h =>
          match Json.decEqObj xs ys with
          | .isTrue htl => .isTrue (by rw [hk, h, htl])
          | .isFalse htl => .isFalse (by simp [htl])
      else .isFalse (by simp [hk])

end

instance : DecidableEq Json := Json.decEq

/-- Escaping of one character inside a JSON string literal, as `json.dumps`
does for the quote and backslash characters (control-character escapes are
not modelled; no payload in this development contains them). -/
def escapeChar (c : Char) : String :=
  if c = '"' then "\\\"" else if c = '\\' then "\\\\" else String.singleton c

def escapeString (s : String) : String :=
  String.join (s.toList.map escapeChar)

def quote (s : String) : String :=
  "\"" ++ escapeString s ++ "\""

mutual

/-- `json.dumps` with Python's default separators: `", "` between items and
`": "` between a key and its value. -/
def dumps : Json → String
  | .null => "null"
  | .bool b => if b then "true" else "false"
  | .num n => toString n
  | .str s => quote s
  | .arr xs => "[" ++ dumpsArr xs ++ "]"
  | .obj fields => "\x7b" ++ dumpsObj fields ++ "\x7d"

def dumpsArr : List Json → String
  | [] => ""
  | [x] => dumps x
  | x :: y :: rest => dumps x ++ ", " ++ dumpsArr (y :: rest)

def dumpsObj : List (String × Json) → String
  | [] => ""
  | [(k, v)] => quote k ++ ": " ++ dumps v
  | (k, v) :: p :: rest => quote k ++ ": " ++ dumps v ++ ", " ++ dumpsObj (p :: rest)

end

/-- The exceptions visible to this core: `ArgumentError` from the message
builders, `ParseError` and `ValidationError` from the parser, transport
errors and arbitrary other exceptions raised by collaborators. -/
inductive Err where
  | argumentError : Err
  | parseError (text : String) : Err
  | validationError (field : String) : Err
  | transportError (message : String) : Err
  | other (message : String) : Err
deriving DecidableEq

/-- The `Response` object of `response.py`: raw text, an optional opaque
transport handle, and the decoded payload, unset (`none`) until parsed. -/
structure Response where
  text : String := ""
  raw_response : Option String := none
  data : Option Json := none
deriving DecidableEq

/-- The abstract transport `send_message(request_text, **kwargs)`:
request text and transport-specific keyword options in, a `Response` out,
or any exception. -/
def Transport : Type := String → List (String × Json) → Except Err Response

/-- The overridable `validate_response` hook: raises to fail validation. -/
def ResponseValidator : Type := Response → Except Err Unit

/-- The JSON decoder (`json.loads`): `none` models malformed JSON. -/
def Loads : Type := String → Option Json

/-- The external schema-validation capability: raises on violation. -/
def SchemaValidator : Type := Json → Except Err Unit

/-- The default `validate_response` of `Client`: a no-op. -/
def default_validate_response : ResponseValidator := fun _ => .ok ()

def hasKey (key : String) (fields : List (String × Json)) : Bool :=
  fields.any (fun p => p.1 = key)

/-- Modelled from the spec: structural validation of one decoded response
element (`parse.py` is not under src/).  Every element must be an object
with `jsonrpc == "2.0"`, exactly one of `result`/`error`, and an `id`
field; violations raise `ValidationError` naming the offending field. -/
def validate_element (element : Json) : Except Err Unit :=
  match element with
  | .obj fields =>
      if fields.lookup "jsonrpc" ≠ some (.str "2.0") then
        .error (.validationError "jsonrpc")
      else if hasKey "result" fields = hasKey "error" fields then
        .error (.validationError "result")
      else if ¬ hasKey "id" fields then
        .error (.validationError "id")
      else .ok ()
  | _ => .error (.validationError "jsonrpc")

def validate_batch : List Json → Except Err Unit
  | [] => .ok ()
  | element :: rest =>
      match validate_element element with
      | .error e => .error e
      | .ok _ => validate_batch rest

/-- Modelled from the spec: `parse(text, validate_against_schema)` of
`parse.py` (not under src/).  Empty transport text is not decoded as JSON
and yields no data; otherwise the text is decoded (`ParseError` if
malformed), an object is a single response and an array a batch (anything
else is a `ParseError`), each element is structurally validated, the
external schema validator runs when requested, and the decoded payload is
returned unchanged. -/
def parse (loads : Loads) (sval : SchemaValidator) (text : String)
    (validate_against_schema : Bool) : Except Err (Option Json) :=
  if text = "" then .ok none
  else
    match loads text with
    | none => .error (.parseError text)
    | some payload =>
      match payload with
      | .obj _ =>
          (match validate_element payload with
           | .error e => .error e
           | .ok _ =>
              match (if validate_against_schema then sval payload else .ok ()) with
              | .error e => .error e
              | .ok _ => .ok (some payload))
      | .arr elements =>
          (match validate_batch elements with
           | .error e => .error e
           | .ok _ =>
              match (if validate_against_schema then sval payload else .ok ()) with
              | .error e => .error e
              | .ok _ => .ok (some payload))
      | _ => .error (.parseError text)

/-- An id generator, as a stream of identifiers: position 0 is the next id
the generator will yield. -/
def IdGen : Type := Nat → Json

/-- Modelled from the spec: the default generator yields 1, 2, 3, …. -/
def default_id_generator : IdGen := fun n => .num (Int.ofNat n + 1)

/-- The id a single builder call draws from a generator: its next value. -/
def drawn_id (gen : IdGen) : Json := gen 0

/-- Modelled from the spec: the params of a request or notification.
Positional and keyword arguments are mutually exclusive (`ArgumentError`
otherwise); `params` is omitted entirely when no arguments are given,
an array for positional arguments, an object for keyword arguments. -/
def build_params (args : List Json) (kwargs : List (String × Json)) :
    Except Err (List (String × Json)) :=
  if args ≠ [] ∧ kwargs ≠ [] then .error .argumentError
  else .ok
    (if args ≠ [] then [("params", Json.arr args)]
     else if kwargs ≠ [] then [("params", Json.obj kwargs)]
     else [])

/-- Modelled from the spec: `Notification(method, *args, **kwargs)` of
`request.py` (not under src/): `jsonrpc`, `method`, optional `params`,
and no `id`. -/
def build_notification (method : String) (args : List Json)
    (kwargs : List (String × Json)) : Except Err Json :=
  match build_params args kwargs with
  | .error e => .error e
  | .ok params =>
      .ok (.obj ([("jsonrpc", Json.str "2.0"), ("method", Json.str method)] ++ params))

/-- Modelled from the spec: `Request(method, *args, id_generator=…,
**kwargs)` of `request.py` (not under src/): the `Notification` fields plus
an `id`, supplied explicitly or drawn from the given generator, falling
back to the module's default generator when none is given. -/
def build_request (method : String) (explicit_id : Option Json)
    (id_generator : Option IdGen) (args : List Json)
    (kwargs : List (String × Json)) : Except Err Json :=
  match build_params args kwargs with
  | .error e => .error e
  | .ok params =>
      .ok (.obj ([("jsonrpc", Json.str "2.0"), ("method", Json.str method)]
        ++ params
        ++ [("id", explicit_id.getD (drawn_id (id_generator.getD default_id_generator)))]))

deriving instance DecidableEq for Except

/-- The externally observable steps of one client call, in the order the
code performs them: the request logging hook, the transport invocation
(with the transport options it receives), the response logging hook, the
`validate_response` hook, and the parse of the response text. -/
inductive Event where
  | logRequest (text : String) (trim : Bool) : Event
  | sendMessage (text : String) (options : List (String × Json)) : Event
  | logResponse (text : String) (trim : Bool) : Event
  | validateResponse (text : String) : Event
  | parseText (text : String) (validate_against_schema : Bool) : Event
deriving DecidableEq

/-- The argument `send` accepts: a pre-serialized string, or a dict/list
(a `Request`/`Notification` object is a dict). -/
inductive RequestInput where
  | text (s : String) : RequestInput
  | json (j : Json) : RequestInput
deriving DecidableEq

/-- `request if isinstance(request, str) else json.dumps(request)`. -/
def normalize_request : RequestInput → String
  | .text s => s
  | .json j => dumps j

/-- The configuration a `Client` holds after `__init__` (the
`basic_logging` switch only installs log handlers and is not modelled). -/
structure Client where
  trim_log_values : Bool := false
  validate_against_schema : Bool := true
  id_generator : Option IdGen := none

/-- `Client.send` (client.py lines 129-138), with its collaborators
explicit: normalize the request to text, log it, hand it to the abstract
transport together with the remaining keyword options, log the raw
response, run `validate_response`, parse the response text, assign the
decoded payload to the response's `data` field, and return the response.
No exception is caught: a failing step ends the call with that error.
The returned trace records the steps in the order they were invoked. -/
def send (tr : Transport) (valr : ResponseValidator) (loads : Loads)
    (sval : SchemaValidator) (request : RequestInput)
    (trim_log_values : Bool) (validate_against_schema : Bool)
    (kwargs : List (String × Json)) : List Event × Except Err Response :=
  let request_text := normalize_request request
  let trace0 := [Event.logRequest request_text trim_log_values,
                 Event.sendMessage request_text kwargs]
  match tr request_text kwargs with
  | .error e => (trace0, .error e)
  | .ok response =>
    let trace1 := trace0 ++ [Event.logResponse response.text trim_log_values,
                             Event.validateResponse response.text]
    match valr response with
    | .error e => (trace1, .error e)
    | .ok _ =>
      let trace2 := trace1 ++ [Event.parseText response.text validate_against_schema]
      match parse loads sval response.text validate_against_schema with
      | .error e => (trace2, .error e)
      | .ok decoded => (trace2, .ok { response with data := decoded })

/-- `send` at the Python call boundary: `@apply_self` fills
`trim_log_values` and `validate_against_schema` from the instance when the
caller does not pass them (`none`). -/
def Client.send_call (c : Client) (tr : Transport) (valr : ResponseValidator)
    (loads : Loads) (sval : SchemaValidator) (request : RequestInput)
    (trim_log_values validate_against_schema : Option Bool)
    (kwargs : List (String × Json)) : List Event × Except Err Response :=
  send tr valr loads sval request
    (trim_log_values.getD c.trim_log_values)
    (validate_against_schema.getD c.validate_against_schema)
    kwargs

/-- `Client.notify` (client.py lines 140-161): build a `Notification` from
the method name and the arguments, then call `send` with it, forwarding the
resolved logging/validation flags explicitly and nothing else — in
particular the remaining keyword arguments become the notification's
params and are NOT forwarded to `send` (so `send_message` receives no
transport options from `notify`). -/
def Client.notify (c : Client) (tr : Transport) (valr : ResponseValidator)
    (loads : Loads) (sval : SchemaValidator) (method_name : String)
    (args : List Json) (trim_log_values validate_against_schema : Option Bool)
    (kwargs : List (String × Json)) : List Event × Except Err Response :=
  match build_notification method_name args kwargs with
  | .error e => ([], .error e)
  | .ok payload =>
      c.send_call tr valr loads sval (.json payload)
        (some (trim_log_values.getD c.trim_log_values))
        (some (validate_against_schema.getD c.validate_against_schema))
        []

/-- `Client.request` (client.py lines 163-190): build a `Request` from the
method name and the arguments, drawing the id from the generator passed in
the call when given and otherwise (by `@apply_self`) from the instance's
generator, then call `send` with it; as in `notify`, the remaining keyword
arguments become the request's params and no transport options are
forwarded to `send`. -/
def Client.request (c : Client) (tr : Transport) (valr : ResponseValidator)
    (loads : Loads) (sval : SchemaValidator) (method_name : String)
    (args : List Json) (id_generator : Option IdGen)
    (trim_log_values validate_against_schema : Option Bool)
    (kwargs : List (String × Json)) : List Event × Except Err Response :=
  let gen := match id_generator with
    | some g => some g
    | none => c.id_generator
  match build_request method_name none gen args kwargs with
  | .error e => ([], .error e)
  | .ok payload =>
      c.send_call tr valr loads sval (.json payload)
        (some (trim_log_values.getD c.trim_log_values))
        (some (validate_against_schema.getD c.validate_against_schema))
        []

/-- `Client.__getattr__` (client.py lines 192-206): any attribute name not
matching a defined member yields, for every name and without raising, the
`attr_handler` closure, which forwards its arguments to `self.request`
under that name.  Defined for every `name : String`, so attribute access
itself never fails. -/
def Client.getattr (c : Client) (tr : Transport) (valr : ResponseValidator)
    (loads : Loads) (sval : SchemaValidator) (name : String) :
    List Json → Option IdGen → Option Bool → Option Bool →
    List (String × Json) → List Event × Except Err Response :=
  fun args id_generator trim_log_values validate_against_schema kwargs =>
    c.request tr valr loads sval name args id_generator
      trim_log_values validate_against_schema kwargs

/-- The keyword names `notify`'s Python signature binds to dedicated
keyword-only parameters instead of to `**kwargs`. -/
def notify_config_names : List String := ["trim_log_values", "validate_against_schema"]

/-- The keyword names `request`'s Python signature binds to dedicated
keyword-only parameters instead of to `**kwargs`. -/
def request_config_names : List String :=
  ["trim_log_values", "validate_against_schema", "id_generator"]

/-- Python keyword binding: the keyword arguments a call's `**kwargs`
receives are those whose names are not declared parameters. -/
def remote_keywords (reserved : List String) (kwargs : List (String × Json)) :
    List (String × Json) :=
  kwargs.filter (fun p => !(reserved.contains p.1))

/-- Reads an intercepted boolean config keyword (the claims only exercise
boolean values for these keywords; a name that is absent is `none`). -/
def toBoolOpt : Option Json → Option Bool
  | some (.bool b) => some b
  | _ => none

/-- `client.notify(method, *args, **kwargs)` at the Python call boundary:
the signature's keyword-only parameters `trim_log_values` and
`validate_against_schema` are taken out of the call's keyword arguments,
and only the rest reach the notification's params. -/
def Client.notify_pycall (c : Client) (tr : Transport) (valr : ResponseValidator)
    (loads : Loads) (sval : SchemaValidator) (method_name : String)
    (args : List Json) (kwargs : List (String × Json)) :
    List Event × Except Err Response :=
  c.notify tr valr loads sval method_name args
    (toBoolOpt (kwargs.lookup "trim_log_values"))
    (toBoolOpt (kwargs.lookup "validate_against_schema"))
    (remote_keywords notify_config_names kwargs)

/-- `client.request(method, *args, **kwargs)` at the Python call boundary:
as `notify_pycall`, with `id_generator` also intercepted by the signature
(the generator itself is not a JSON value, so it is carried out of band as
`id_generator_arg`). -/
def Client.request_pycall (c : Client) (tr : Transport) (valr : ResponseValidator)
    (loads : Loads) (sval : SchemaValidator) (method_name : String)
    (args : List Json) (id_generator_arg : Option IdGen)
    (kwargs : List (String × Json)) : List Event × Except Err Response :=
  c.request tr valr loads sval method_name args id_generator_arg
    (toBoolOpt (kwargs.lookup "trim_log_values"))
    (toBoolOpt (kwargs.lookup "validate_against_schema"))
    (remote_keywords request_config_names kwargs)

/-- The keys of a payload's `params` member (empty when `params` is absent
or not an object). -/
def paramsKeys (payload : Json) : List String :=
  match payload with
  | .obj fields =>
      match fields.lookup "params" with
      | some (.obj pairs) => pairs.map Prod.fst
      | _ => []
  | _ => []

/-! Concrete fixtures: stub collaborators used to exercise the theorems on
closed inputs. -/

/-- A stub transport that replies with an empty-text response (a
fire-and-forget transport answering a notification). -/
def trEmpty : Transport :=
  fun _ _ => .ok { text := "", raw_response := none, data := none }

/-- A stub transport that raises a transport error. -/
def trFail : Transport :=
  fun _ _ => .error (.transportError "connection refused")

/-- A stub transport that replies with text no decoder accepts. -/
def trBad : Transport :=
  fun _ _ => .ok { text := "bad", raw_response := none, data := none }

/-- A JSON decoder that rejects every text (malformed JSON). -/
def loadsNone : Loads := fun _ => none

/-- A schema validator that accepts every payload. -/
def svalOk : SchemaValidator := fun _ => .ok ()

/-- A `validate_response` override that rejects every response. -/
def valrReject : ResponseValidator := fun _ => .error (.other "rejected")

/-- A client with the constructor's default configuration. -/
def c0 : Client := {}

/-- A generator whose next id is always 7. -/
def genConst7 : IdGen := fun _ => .num 7

/-- A client configured at construction with `genConst7` as default
generator. -/
def cGen : Client := { id_generator := some genConst7 }

/-- The serialized `Notification("ping")` payload. -/
def ping_payload : Json :=
  .obj [("jsonrpc", Json.str "2.0"), ("method", Json.str "ping")]

def ping_text : String := "\x7b\"jsonrpc\": \"2.0\", \"method\": \"ping\"\x7d"

def ping_headers_text : String :=
  "\x7b\"jsonrpc\": \"2.0\", \"method\": \"ping\", \"params\": \x7b\"headers\": \"x\"\x7d\x7d"

/-- Holds of an event when it is not a transport invocation, or is a
transport invocation carrying exactly the given options. -/
def sendOptionsAre (options : List (String × Json)) : Event → Bool
  | .sendMessage _ opts => opts == options
  | _ => true

/-! Helper lemmas shared by the claim theorems. -/

theorem parse_empty (loads : Loads) (sval : SchemaValidator) (vas : Bool) :
    parse loads sval "" vas = .ok none := by
  simp [parse]

theorem send_ok_eq (tr : Transport) (valr : ResponseValidator) (loads : Loads)
    (sval : SchemaValidator) (request : RequestInput) (trim vas : Bool)
    (kwargs : List (String × Json)) (r : Response) (d : Option Json)
    (htr : tr (normalize_request request) kwargs = .ok r)
    (hval : valr r = .ok ())
    (hparse : parse loads sval r.text vas = .ok d) :
    send tr valr loads sval request trim vas kwargs =
      ([.logRequest (normalize_request request) trim,
        .sendMessage (normalize_request request) kwargs,
        .logResponse r.text trim,
        .validateResponse r.text,
        .parseText r.text vas],
       .ok { r with data := d }) := by
  simp [send, htr, hval, hparse]

theorem send_trace_head2 (tr : Transport) (valr : ResponseValidator)
    (loads : Loads) (sval : SchemaValidator) (request : RequestInput)
    (trim vas : Bool) (kwargs : List (String × Json)) :
    (send tr valr loads sval request trim vas kwargs).1.get? 0 =
      some (.logRequest (normalize_request request) trim) ∧
    (send tr valr loads sval request trim vas kwargs).1.get? 1 =
      some (.sendMessage (normalize_request request) kwargs) := by
  cases htr : tr (normalize_request request) kwargs with
  | error e => simp [send, htr]
  | ok r =>
    cases hv : valr r with
    | error e => simp [send, htr, hv]
    | ok u =>
      cases hp : parse loads sval r.text vas with
      | error e => simp [send, htr, hv, hp]
      | ok d => simp [send, htr, hv, hp]

theorem send_trace_options (tr : Transport) (valr : ResponseValidator)
    (loads : Loads) (sval : SchemaValidator) (request : RequestInput)
    (trim vas : Bool) (kwargs : List (String × Json)) :
    (send tr valr loads sval request trim vas kwargs).1.all
      (sendOptionsAre kwargs) = true := by
  cases htr : tr (normalize_request request) kwargs with
  | error e => simp [send, htr, sendOptionsAre]
  | ok r =>
    cases hv : valr r with
    | error e => simp [send, htr, hv, sendOptionsAre]
    | ok u =>
      cases hp : parse loads sval r.text vas with
      | error e => simp [send, htr, hv, hp, sendOptionsAre]
      | ok d => simp [send, htr, hv, hp, sendOptionsAre]

theorem all_not_reserved_of_filter (reserved : List String)
    (kwargs : List (String × Json)) :
    ((remote_keywords reserved kwargs).map Prod.fst).all
      (fun k => !(reserved.contains k)) = true := by
  rw [List.all_eq_true]
  intro k hk
  simp only [List.mem_map] at hk
  obtain ⟨p, hp, rfl⟩ := hk
  simp only [remote_keywords, List.mem_filter] at hp
  simpa using hp.2

theorem paramsKeys_build_notification (method : String) (args : List Json)
    (reserved : List String) (kwargs : List (String × Json)) (payload : Json)
    (h : build_notification method args (remote_keywords reserved kwargs) = .ok payload) :
    (paramsKeys payload).all (fun k => !(reserved.contains k)) = true := by
  unfold build_notification build_params at h
  by_cases ha : args = []
  · by_cases hb : remote_keywords reserved kwargs = []
    · simp only [ha, hb] at h
      simp at h
      subst h
      exact rfl
    · simp only [ha] at h
      simp [hb] at h
      subst h
      exact all_not_reserved_of_filter reserved kwargs
  · by_cases hb : remote_keywords reserved kwargs = []
    · simp [ha, hb] at h
      subst h
      exact rfl
    · simp [ha, hb] at h

theorem paramsKeys_build_request (method : String) (explicit_id : Option Json)
    (gen : Option IdGen) (args : List Json) (reserved : List String)
    (kwargs : List (String × Json)) (payload : Json)
    (h : build_request method explicit_id gen args (remote_keywords reserved kwargs) = .ok payload) :
    (paramsKeys payload).all (fun k => !(reserved.contains k)) = true := by
  unfold build_request build_params at h
  by_cases ha : args = []
  · by_cases hb : remote_keywords reserved kwargs = []
    · simp only [ha, hb] at h
      simp at h
      subst h
      exact rfl
    · simp only [ha] at h
      simp [hb] at h
      subst h
      exact all_not_reserved_of_filter reserved kwargs
  · by_cases hb : remote_keywords reserved kwargs = []
    · simp [ha, hb] at h
      subst h
      exact rfl
    · simp [ha, hb] at h

theorem notify_trace_options (c : Client) (tr : Transport)
    (valr : ResponseValidator) (loads : Loads) (sval : SchemaValidator)
    (method : String) (args : List Json) (trim vas : Option Bool)
    (kwargs : List (String × Json)) :
    (c.notify tr valr loads sval method args trim vas kwargs).1.all
      (sendOptionsAre []) = true := by
  unfold Client.notify
  cases hb : build_notification method args kwargs with
  | error e => simp [hb]
  | ok payload =>
    simp only [hb]
    exact send_trace_options tr valr loads sval (.json payload)
      (trim.getD c.trim_log_values) (vas.getD c.validate_against_schema) []

theorem request_trace_options (c : Client) (tr : Transport)
    (valr : ResponseValidator) (loads : Loads) (sval : SchemaValidator)
    (method : String) (args : List Json) (gen : Option IdGen)
    (trim vas : Option Bool) (kwargs : List (String × Json)) :
    (c.request tr valr loads sval method args gen trim vas kwargs).1.all
      (sendOptionsAre []) = true := by
  unfold Client.request
  cases hb : build_request method none
      (match gen with | some g => some g | none => c.id_generator) args kwargs with
  | error e => simp [hb]
  | ok payload =>
    simp only [hb]
    exact send_trace_options tr valr loads sval (.json payload)
      (trim.getD c.trim_log_values) (vas.getD c.validate_against_schema) []

/-! The claim theorems. -/

/-- C1: for every request input (string, or dict/list serialized to JSON)
and every transport, `Client.send` performs exactly these steps in this
order: normalize the request to text, log the outgoing text, invoke the
abstract `send_message` with that text, log the raw response, run
`validate_response` on it, parse the response text, attach the decoded
payload to the response's `data` field, and return that response. -/
theorem C1_send_steps_in_order (tr : Transport) (valr : ResponseValidator)
    (loads : Loads) (sval : SchemaValidator) (request : RequestInput)
    (trim vas : Bool) (kwargs : List (String × Json)) (r : Response)
    (d : Option Json)
    (htr : tr (normalize_request request) kwargs = .ok r)
    (hval : valr r = .ok ())
    (hparse : parse loads sval r.text vas = .ok d) :
    send tr valr loads sval request trim vas kwargs =
      ([.logRequest (normalize_request request) trim,
        .sendMessage (normalize_request request) kwargs,
        .logResponse r.text trim,
        .validateResponse r.text,
        .parseText r.text vas],
       .ok { r with data := d }) :=
  send_ok_eq tr valr loads sval request trim vas kwargs r d htr hval hparse

theorem C1_send_steps_in_order_witness :
    send trEmpty default_validate_response loadsNone svalOk (.text "hello")
        false true [] =
      ([.logRequest "hello" false, .sendMessage "hello" [],
        .logResponse "" false, .validateResponse "", .parseText "" true],
       .ok { text := "", raw_response := none, data := none }) :=
  C1_send_steps_in_order trEmpty default_validate_response loadsNone svalOk
    (.text "hello") false true []
    { text := "", raw_response := none, data := none } none rfl rfl rfl

/-- C2: attribute access on a client for a name that does not match a
defined member (in Python, exactly the case in which `__getattr__` runs)
always succeeds and yields a callable — `Client.getattr` is total in the
name — and calling that callable with any arguments is identical to
calling `client.request` with that name and those arguments. -/
theorem C2_getattr_is_request (c : Client) (tr : Transport)
    (valr : ResponseValidator) (loads : Loads) (sval : SchemaValidator)
    (name : String) (args : List Json) (gen : Option IdGen)
    (trim vas : Option Bool) (kwargs : List (String × Json)) :
    c.getattr tr valr loads sval name args gen trim vas kwargs =
      c.request tr valr loads sval name args gen trim vas kwargs := rfl

/-- C5: every exception raised inside a `send` call — by the transport's
`send_message` (e.g. a `TransportError`), by `validate_response`, or by
`parse` — propagates to the caller unchanged, and the call aborts at the
failing step. -/
theorem C5_send_propagates_errors (tr : Transport) (valr : ResponseValidator)
    (loads : Loads) (sval : SchemaValidator) (request : RequestInput)
    (trim vas : Bool) (kwargs : List (String × Json)) (e : Err) :
    (tr (normalize_request request) kwargs = .error e →
      (send tr valr loads sval request trim vas kwargs).2 = .error e) ∧
    (∀ r, tr (normalize_request request) kwargs = .ok r →
      valr r = .error e →
      (send tr valr loads sval request trim vas kwargs).2 = .error e) ∧
    (∀ r, tr (normalize_request request) kwargs = .ok r →
      valr r = .ok () →
      parse loads sval r.text vas = .error e →
      (send tr valr loads sval request trim vas kwargs).2 = .error e) :=
  ⟨fun h => by simp [send, h],
   fun r h1 h2 => by simp [send, h1, h2],
   fun r h1 h2 h3 => by simp [send, h1, h2, h3]⟩

theorem C5_send_propagates_errors_witness :
    (send trFail default_validate_response loadsNone svalOk (.text "q")
        false true []).2 = .error (.transportError "connection refused") ∧
    (send trEmpty valrReject loadsNone svalOk (.text "q")
        false true []).2 = .error (.other "rejected") ∧
    (send trBad default_validate_response loadsNone svalOk (.text "q")
        false true []).2 = .error (.parseError "bad") :=
  ⟨(C5_send_propagates_errors trFail default_validate_response loadsNone svalOk
      (.text "q") false true [] _).1 rfl,
   (C5_send_propagates_errors trEmpty valrReject loadsNone svalOk
      (.text "q") false true [] _).2.1 _ rfl rfl,
   (C5_send_propagates_errors trBad default_validate_response loadsNone svalOk
      (.text "q") false true [] _).2.2 _ rfl rfl rfl⟩

/-- C6: in a `send` call, the response's `data` field is written exactly
once, with exactly the successful parse's output, and only when parse
succeeds: any returned response carries `data` equal to the parse result
(never a partial value), and a failing parse aborts the call with its
error, returning nothing. -/
theorem C6_send_no_partial_data (tr : Transport) (valr : ResponseValidator)
    (loads : Loads) (sval : SchemaValidator) (request : RequestInput)
    (trim vas : Bool) (kwargs : List (String × Json)) (r : Response)
    (htr : tr (normalize_request request) kwargs = .ok r) :
    (∀ r2, (send tr valr loads sval request trim vas kwargs).2 = .ok r2 →
      parse loads sval r.text vas = .ok r2.data ∧
      r2 = { r with data := r2.data }) ∧
    (∀ e, valr r = .ok () → parse loads sval r.text vas = .error e →
      (send tr valr loads sval request trim vas kwargs).2 = .error e) := by
  constructor
  · intro r2 hok
    cases hv : valr r with
    | error e => simp [send, htr, hv] at hok
    | ok u =>
      cases hp : parse loads sval r.text vas with
      | error e => simp [send, htr, hv, hp] at hok
      | ok d =>
        simp [send, htr, hv, hp] at hok
        subst hok
        exact ⟨rfl, rfl⟩
  · intro e hv hp
    simp [send, htr, hv, hp]

theorem C6_send_no_partial_data_witness :
    parse loadsNone svalOk "" true = .ok none ∧
    ({ text := "", raw_response := none, data := none } : Response) =
      { text := "", raw_response := none, data := none } :=
  (C6_send_no_partial_data trEmpty default_validate_response loadsNone svalOk
      (.text "q") false true []
      { text := "", raw_response := none, data := none } rfl).1
    { text := "", raw_response := none, data := none } rfl

/-- C9: on a successful `send` call, the returned response is the
transport's response with only its `data` field updated: `text`,
`raw_response` and every other transport-set component are exactly as the
transport left them. -/
theorem C9_send_frame (tr : Transport) (valr : ResponseValidator)
    (loads : Loads) (sval : SchemaValidator) (request : RequestInput)
    (trim vas : Bool) (kwargs : List (String × Json)) (r r2 : Response)
    (htr : tr (normalize_request request) kwargs = .ok r)
    (hok : (send tr valr loads sval request trim vas kwargs).2 = .ok r2) :
    r2.text = r.text ∧ r2.raw_response = r.raw_response ∧
    r2 = { r with data := r2.data } := by
  cases hv : valr r with
  | error e => simp [send, htr, hv] at hok
  | ok u =>
    cases hp : parse loads sval r.text vas with
    | error e => simp [send, htr, hv, hp] at hok
    | ok d =>
      simp [send, htr, hv, hp] at hok
      subst hok
      exact ⟨rfl, rfl, rfl⟩

theorem C9_send_frame_witness :
    ("" : String) = "" ∧ (none : Option String) = none ∧
    ({ text := "", raw_response := none, data := none } : Response) =
      { text := "", raw_response := none, data := none } :=
  C9_send_frame trEmpty default_validate_response loadsNone svalOk (.text "q")
    false true [] { text := "", raw_response := none, data := none }
    { text := "", raw_response := none, data := none } rfl rfl

/-- C3: `notify("ping")` sends exactly the serialized payload
`\x7b"jsonrpc": "2.0", "method": "ping"\x7d`, whose fields carry no `id`;
and when the transport's `send_message` returns a response with empty
text, the reply is not decoded as JSON: the conclusion holds for every
decoder `loads`, and the call returns `.ok` with `data = none` instead of
raising a `ParseError`. -/
theorem C3_notify_ping_empty_reply (c : Client) (tr : Transport)
    (valr : ResponseValidator) (loads : Loads) (sval : SchemaValidator)
    (trim vas : Option Bool) (r : Response)
    (htr : tr ping_text [] = .ok r)
    (hempty : r.text = "")
    (hval : valr r = .ok ()) :
    build_notification "ping" [] [] = .ok ping_payload ∧
    hasKey "id" [("jsonrpc", Json.str "2.0"), ("method", Json.str "ping")] = false ∧
    c.notify tr valr loads sval "ping" [] trim vas [] =
      ([.logRequest ping_text (trim.getD c.trim_log_values),
        .sendMessage ping_text [],
        .logResponse "" (trim.getD c.trim_log_values),
        .validateResponse "",
        .parseText "" (vas.getD c.validate_against_schema)],
       .ok { r with data := none }) := by
  refine ⟨rfl, rfl, ?_⟩
  have hn : c.notify tr valr loads sval "ping" [] trim vas [] =
      send tr valr loads sval (.json ping_payload)
        (trim.getD c.trim_log_values) (vas.getD c.validate_against_schema) [] := rfl
  have hok := send_ok_eq tr valr loads sval (.json ping_payload)
    (trim.getD c.trim_log_values) (vas.getD c.validate_against_schema) [] r none
    (by rw [show normalize_request (.json ping_payload) = ping_text from rfl]; exact htr)
    hval
    (by rw [hempty]; exact parse_empty loads sval _)
  rw [hn, hok, hempty,
    show normalize_request (.json ping_payload) = ping_text from rfl]

theorem C3_notify_ping_empty_reply_witness :
    build_notification "ping" [] [] = .ok ping_payload ∧
    hasKey "id" [("jsonrpc", Json.str "2.0"), ("method", Json.str "ping")] = false ∧
    c0.notify trEmpty default_validate_response loadsNone svalOk "ping" []
        none none [] =
      ([.logRequest ping_text false, .sendMessage ping_text [],
        .logResponse "" false, .validateResponse "", .parseText "" true],
       .ok { text := "", raw_response := none, data := none }) :=
  C3_notify_ping_empty_reply c0 trEmpty default_validate_response loadsNone
    svalOk none none { text := "", raw_response := none, data := none }
    rfl rfl rfl

/-- C4 counterexample: a keyword option supplied to `notify` is NOT passed
through to the transport's `send_message`.  With the caller supplying the
keyword map `[("headers", "x")]`, the transport invocation recorded in the
trace carries the empty options map (the keyword became the payload's
`params` instead), so the options the transport receives differ from the
keyword options the caller supplied. -/
theorem C4_counterexample :
    (c0.notify_pycall trEmpty default_validate_response loadsNone svalOk
        "ping" [] [("headers", Json.str "x")]).1.get? 1 =
      some (.sendMessage ping_headers_text []) ∧
    ([] : List (String × Json)) ≠ [("headers", Json.str "x")] := by
  decide

/-- C4 (amended): only for `send` are the caller's transport keyword
options passed through unmodified to `send_message`; calls made through
`request` or `notify` forward no transport options at all — their extra
keyword arguments become the JSON-RPC params, and every transport
invocation they make carries the empty options map. -/
theorem C4_amended_kwargs_pass_through (c : Client) (tr : Transport)
    (valr : ResponseValidator) (loads : Loads) (sval : SchemaValidator)
    (request : RequestInput) (trim vas : Bool) (otrim ovas : Option Bool)
    (kwargs rkwargs : List (String × Json)) (method : String)
    (args : List Json) (gen : Option IdGen) :
    (send tr valr loads sval request trim vas kwargs).1.get? 1 =
      some (.sendMessage (normalize_request request) kwargs) ∧
    (c.notify tr valr loads sval method args otrim ovas rkwargs).1.all
      (sendOptionsAre []) = true ∧
    (c.request tr valr loads sval method args gen otrim ovas rkwargs).1.all
      (sendOptionsAre []) = true :=
  ⟨(send_trace_head2 tr valr loads sval request trim vas kwargs).2,
   notify_trace_options c tr valr loads sval method args otrim ovas rkwargs,
   request_trace_options c tr valr loads sval method args gen otrim ovas rkwargs⟩

/-- C7: `notify` builds a Notification from the method name and the
arguments and delegates the whole round-trip to `send`, returning exactly
what `send` returns. -/
theorem C7_notify_delegates (c : Client) (tr : Transport)
    (valr : ResponseValidator) (loads : Loads) (sval : SchemaValidator)
    (method : String) (args : List Json) (trim vas : Option Bool)
    (kwargs : List (String × Json)) (payload : Json)
    (hb : build_notification method args kwargs = .ok payload) :
    c.notify tr valr loads sval method args trim vas kwargs =
      send tr valr loads sval (.json payload)
        (trim.getD c.trim_log_values) (vas.getD c.validate_against_schema) [] := by
  simp [Client.notify, hb, Client.send_call]

theorem C7_notify_delegates_witness :
    c0.notify trEmpty default_validate_response loadsNone svalOk "ping" []
        none none [] =
      send trEmpty default_validate_response loadsNone svalOk
        (.json ping_payload) false true [] :=
  C7_notify_delegates c0 trEmpty default_validate_response loadsNone svalOk
    "ping" [] none none [] ping_payload rfl

/-- C8: `request` builds a Request whose id is drawn from the id generator
supplied in the call when one is given, and otherwise from the client's
default generator configured at construction, and delegates the round-trip
to `send` with the built payload. -/
theorem C8_request_generator_choice (c : Client) (tr : Transport)
    (valr : ResponseValidator) (loads : Loads) (sval : SchemaValidator)
    (method : String) (args : List Json) (kwargs : List (String × Json))
    (trim vas : Option Bool) (g gd : IdGen) (prms : List (String × Json))
    (hp : build_params args kwargs = .ok prms) :
    (c.request tr valr loads sval method args (some g) trim vas kwargs =
      send tr valr loads sval
        (.json (.obj ([("jsonrpc", Json.str "2.0"), ("method", Json.str method)]
          ++ prms ++ [("id", drawn_id g)])))
        (trim.getD c.trim_log_values) (vas.getD c.validate_against_schema) []) ∧
    (c.id_generator = some gd →
      c.request tr valr loads sval method args none trim vas kwargs =
        send tr valr loads sval
          (.json (.obj ([("jsonrpc", Json.str "2.0"), ("method", Json.str method)]
            ++ prms ++ [("id", drawn_id gd)])))
          (trim.getD c.trim_log_values) (vas.getD c.validate_against_schema) []) := by
  constructor
  · simp [Client.request, build_request, hp, Client.send_call]
  · intro hg
    simp [Client.request, build_request, hp, hg, Client.send_call]

theorem C8_request_generator_choice_witness :
    (cGen.request trEmpty default_validate_response loadsNone svalOk "cube"
        [Json.num 3] (some genConst7) none none [] =
      send trEmpty default_validate_response loadsNone svalOk
        (.json (.obj ([("jsonrpc", Json.str "2.0"), ("method", Json.str "cube")]
          ++ [("params", Json.arr [Json.num 3])] ++ [("id", drawn_id genConst7)])))
        false true []) ∧
    (cGen.request trEmpty default_validate_response loadsNone svalOk "cube"
        [Json.num 3] none none none [] =
      send trEmpty default_validate_response loadsNone svalOk
        (.json (.obj ([("jsonrpc", Json.str "2.0"), ("method", Json.str "cube")]
          ++ [("params", Json.arr [Json.num 3])] ++ [("id", drawn_id genConst7)])))
        false true []) :=
  have h := C8_request_generator_choice cGen trEmpty default_validate_response
    loadsNone svalOk "cube" [Json.num 3] [] none none genConst7 genConst7
    [("params", Json.arr [Json.num 3])] rfl
  ⟨h.1, h.2 rfl⟩

/-- C10: the keyword names `trim_log_values`, `validate_against_schema`
and (for `request`) `id_generator` are intercepted by the signatures of
`notify`/`request` as client configuration: whatever keyword map the
caller supplies, the payload handed to the transport is built from the
remaining keywords only, and its params never contain one of these
names. -/
theorem C10_config_keywords_intercepted (c : Client) (tr : Transport)
    (valr : ResponseValidator) (loads : Loads) (sval : SchemaValidator)
    (method : String) (args : List Json) (kwargs : List (String × Json))
    (gen : Option IdGen) (npayload rpayload : Json)
    (hn : build_notification method args
      (remote_keywords notify_config_names kwargs) = .ok npayload)
    (hr : build_request method none
      (match gen with | some g => some g | none => c.id_generator) args
      (remote_keywords request_config_names kwargs) = .ok rpayload) :
    ((c.notify_pycall tr valr loads sval method args kwargs).1.get? 1 =
      some (.sendMessage (dumps npayload) [])) ∧
    (paramsKeys npayload).all
      (fun k => !(notify_config_names.contains k)) = true ∧
    ((c.request_pycall tr valr loads sval method args gen kwargs).1.get? 1 =
      some (.sendMessage (dumps rpayload) [])) ∧
    (paramsKeys rpayload).all
      (fun k => !(request_config_names.contains k)) = true := by
  refine ⟨?_, paramsKeys_build_notification method args notify_config_names
      kwargs npayload hn,
    ?_, paramsKeys_build_request _ _ _ _ _ _ _ hr⟩
  · unfold Client.notify_pycall Client.notify
    simp only [hn]
    exact (send_trace_head2 tr valr loads sval (.json npayload)
      ((toBoolOpt ((kwargs.lookup "trim_log_values"))).getD c.trim_log_values)
      ((toBoolOpt ((kwargs.lookup "validate_against_schema"))).getD
        c.validate_against_schema) []).2
  · unfold Client.request_pycall Client.request
    simp only [hr]
    exact (send_trace_head2 tr valr loads sval (.json rpayload)
      ((toBoolOpt ((kwargs.lookup "trim_log_values"))).getD c.trim_log_values)
      ((toBoolOpt ((kwargs.lookup "validate_against_schema"))).getD
        c.validate_against_schema) []).2

theorem C10_config_keywords_intercepted_witness :
    ((c0.notify_pycall trEmpty default_validate_response loadsNone svalOk
        "cat" [] [("trim_log_values", Json.bool true),
                  ("name", Json.str "Yoko")]).1.get? 1 =
      some (.sendMessage (dumps (Json.obj [("jsonrpc", Json.str "2.0"),
        ("method", Json.str "cat"),
        ("params", Json.obj [("name", Json.str "Yoko")])])) [])) ∧
    (paramsKeys (Json.obj [("jsonrpc", Json.str "2.0"),
        ("method", Json.str "cat"),
        ("params", Json.obj [("name", Json.str "Yoko")])])).all
      (fun k => !(notify_config_names.contains k)) = true ∧
    ((c0.request_pycall trEmpty default_validate_response loadsNone svalOk
        "cat" [] none [("trim_log_values", Json.bool true),
                       ("name", Json.str "Yoko")]).1.get? 1 =
      some (.sendMessage (dumps (Json.obj [("jsonrpc", Json.str "2.0"),
        ("method", Json.str "cat"),
        ("params", Json.obj [("name", Json.str "Yoko")]),
        ("id", Json.num 1)])) [])) ∧
    (paramsKeys (Json.obj [("jsonrpc", Json.str "2.0"),
        ("method", Json.str "cat"),
        ("params", Json.obj [("name", Json.str "Yoko")]),
        ("id", Json.num 1)])).all
      (fun k => !(request_config_names.contains k)) = true :=
  C10_config_keywords_intercepted c0 trEmpty default_validate_response
    loadsNone svalOk "cat" []
    [("trim_log_values", Json.bool true), ("name", Json.str "Yoko")] none
    (Json.obj [("jsonrpc", Json.str "2.0"), ("method", Json.str "cat"),
      ("params", Json.obj [("name", Json.str "Yoko")])])
    (Json.obj [("jsonrpc", Json.str "2.0"), ("method", Json.str "cat"),
      ("params", Json.obj [("name", Json.str "Yoko")]),
      ("id", Json.num 1)])
    rfl rfl

end JsonRpc
